import Mathlib

/-!
# Verification of `src/HomePage.js` (auth-pack)

A shallow embedding of the account-list home page of a TOTP authenticator
app.  The source is a React component; we embed its pure helpers
(`handleSearch`'s filter, the `onAccountEdit` payload, the countdown
`onComplete` callback) as Lean functions, and its stateful behaviour
(`useState` variables, the three `useEffect` blocks, `onRefresh`, the
interval timer) as an explicit step function on a component-state record.
JS strings are modelled as Lean `String`s, JS `trim`/`toLowerCase`/
`includes` by explicit character-list operations, and JS objects by
structures.  Effects are modelled at the granularity React guarantees:
after an input (prop) change, the effect cascade runs to quiescence before
the next external event (timer fire, pull-to-refresh, ...) is delivered.
-/

/-- An account record as stored in the account store and displayed in the
list: `id`, `accountName`, `issuer`, `secretKey`, `changedAt`, plus the
`oldAccountName` property that `onAccountEdit` attaches to the object it
passes to the store (absent, i.e. `none`, on records that never went
through a rename). -/
structure Account where
  id : Nat
  accountName : String
  issuer : String
  secretKey : String
  changedAt : Nat
  oldAccountName : Option String
deriving Repr, DecidableEq

/-- JS `String.prototype.trim()` on the character list of `s`: drop
whitespace from both ends.  (The JS whitespace set is modelled by
`Char.isWhitespace`.) -/
def jsTrim (s : String) : List Char :=
  ((s.toList.dropWhile Char.isWhitespace).reverse.dropWhile Char.isWhitespace).reverse

/-- JS `String.prototype.toLowerCase()`, modelled characterwise by
`Char.toLower`. -/
def jsToLower (s : String) : List Char :=
  s.toList.map Char.toLower

/-- JS `hay.includes(pat)`: `pat` occurs as a contiguous substring of
`hay`. -/
def jsIncludes (hay pat : List Char) : Bool :=
  decide (pat <:+: hay)

/-- The predicate from line 216 of `HomePage.js`:
`item.accountName.toLowerCase().includes(query.toLowerCase())`. -/
def accountMatches (query : String) (item : Account) : Bool :=
  jsIncludes (jsToLower item.accountName) (jsToLower query)

/-- The list computed by `handleSearch` (lines 213-219) and stored into
`filteredData`:
`query.trim() !== "" ? accounts && accounts.filter(...) : accounts`.
The model's account list is total (never `null`/`undefined`), so the JS
`accounts && ...` null-guard reduces to the filter itself. -/
def handleSearchFiltered (accounts : List Account) (query : String) : List Account :=
  if jsTrim query ≠ [] then accounts.filter (accountMatches query) else accounts

/-- The object `onAccountEdit` (lines 149-157) passes to `setAccount`:
`{...editingAccount, accountName: newAccountName, oldAccountName: editingAccount.accountName}`. -/
def onAccountEditPayload (editingAccount : Account) (newAccountName : String) : Account :=
  { editingAccount with
      accountName := newAccountName
      oldAccountName := some editingAccount.accountName }

/-- A sample stored account (fresh, never renamed). -/
def sampleAccount : Account :=
  { id := 1
    accountName := "GitHub"
    issuer := "GitHub"
    secretKey := "JBSWY3DPEHPK3PXP"
    changedAt := 0
    oldAccountName := none }

-- ## Helper lemmas about `jsTrim`

/-- Dropping a whitespace prefix does not change whether every character is
whitespace. -/
theorem all_ws_dropWhile_iff (cs : List Char) :
    (∀ c ∈ cs.dropWhile Char.isWhitespace, c.isWhitespace) ↔
      (∀ c ∈ cs, c.isWhitespace) := by
  induction cs with
  | nil => simp
  | cons c cs ih =>
    by_cases hc : c.isWhitespace
    · simpa [List.dropWhile_cons, hc] using ih
    · simp [List.dropWhile_cons, hc]

/-- Function `jsTrim` returns the empty list exactly when the string is empty or
all-whitespace. -/
theorem jsTrim_eq_nil_iff (s : String) :
    jsTrim s = [] ↔ ∀ c ∈ s.toList, c.isWhitespace := by
  unfold jsTrim
  rw [List.reverse_eq_nil_iff, List.dropWhile_eq_nil_iff]
  constructor
  · intro h
    rw [← all_ws_dropWhile_iff]
    intro c hc
    exact h c (by simpa using hc)
  · intro h c hc
    have := (all_ws_dropWhile_iff s.toList).2 h
    exact this c (by simpa using hc)

-- ## Component state and effects

/-- External inputs of `HomePage`: the connectivity flag from
`useNetInfo()` and the `userInfo` / `serverUrl` / `token` values from
`useStore()`.  Presence ("truthiness") of the store values is modelled by
`Option`. -/
structure Props where
  isConnected : Bool
  userInfo : Option String
  serverUrl : Option String
  token : Option String
deriving Repr, DecidableEq

/-- The value computed by the effect at lines 84-86:
`Boolean(isConnected && userInfo && serverUrl)`. -/
def canSyncOf (p : Props) : Bool :=
  p.isConnected && p.userInfo.isSome && p.serverUrl.isSome

/-- One invocation of `startSync(userInfo, serverUrl, token)`, recorded by
the arguments it was given. -/
structure SyncCall where
  userInfo : Option String
  serverUrl : Option String
  token : Option String
deriving Repr, DecidableEq

/-- The `startSync` call the component issues from props `p`. -/
def mkSyncCall (p : Props) : SyncCall :=
  { userInfo := p.userInfo, serverUrl := p.serverUrl, token := p.token }

/-- Constant `REFRESH_INTERVAL` (line 43): the interval period, in milliseconds. -/
def REFRESH_INTERVAL : Nat := 60000

/-- An active `setInterval` handle: its period and the `startSync` call its
closure captured. -/
structure TimerInfo where
  intervalMs : Nat
  call : SyncCall
deriving Repr, DecidableEq

/-- A notification posted through `notify(kind, {params: {title, description}})`. -/
structure Notification where
  kind : String
  title : String
  description : String
deriving Repr, DecidableEq

/-- The `useState` pieces of `HomePage` relevant to the verified claims,
plus the `accounts` snapshot from `useAccounts()` and the interval handle
owned by the sync-timer effect. -/
structure HState where
  searchQuery : String
  filteredData : List Account
  accounts : List Account
  accountsVersion : Nat
  refreshing : Bool
  canSync : Bool
  timer : Option TimerInfo
deriving Repr, DecidableEq

/-- The full component: current props and current state. -/
structure World where
  props : Props
  st : HState
deriving Repr, DecidableEq

/-- Effect at lines 84-86: `setCanSync(Boolean(isConnected && userInfo && serverUrl))`,
dependencies `[isConnected, userInfo, serverUrl]`. -/
def canSyncEffect (p : Props) (s : HState) : HState :=
  { s with canSync := canSyncOf p }

/-- Effect at lines 89-92, dependency `[accounts]`:
`setFilteredData(accounts); setAccountsVersion(prev => prev + 1)`. -/
def accountsEffect (accounts : List Account) (s : HState) : HState :=
  { s with
      accounts := accounts
      filteredData := accounts
      accountsVersion := s.accountsVersion + 1 }

/-- Cleanup of the sync-timer effect (line 104): `clearInterval(timer)`.
When the previous run took the `canSync = false` branch it registered no
cleanup, but then no timer exists either, so the unconditional clear is
extensionally the same. -/
def syncEffectCleanup (s : HState) : HState :=
  { s with timer := none }

/-- Body of the effect at lines 94-106: when `canSync`, immediately call
`startSync(userInfo, serverUrl, token)` and install a 60-second interval
whose closure repeats that call; otherwise do nothing. -/
def syncEffectBody (p : Props) (s : HState) : HState × List SyncCall :=
  if s.canSync then
    ({ s with timer := some { intervalMs := REFRESH_INTERVAL, call := mkSyncCall p } },
      [mkSyncCall p])
  else (s, [])

/-- Re-run of the sync-timer effect after its dependencies
`[startSync, canSync, token]` changed: previous cleanup, then the body. -/
def rerunSyncEffect (p : Props) (s : HState) : HState × List SyncCall :=
  syncEffectBody p (syncEffectCleanup s)

/-- Handler `handleSearch(query)` (lines 213-219): store the query and the
filtered list. -/
def handleSearchStep (query : String) (s : HState) : HState :=
  { s with
      searchQuery := query
      filteredData := handleSearchFiltered s.accounts query }

/-- The `data` prop of the `FlashList` (line 364):
`searchQuery.trim() !== "" ? filteredData : accounts`. -/
def flashListData (s : HState) : List Account :=
  if jsTrim s.searchQuery ≠ [] then s.filteredData else s.accounts

/-- The success notification posted by `onRefresh` (lines 120-125). -/
def syncSuccessNotification : Notification :=
  { kind := "success"
    title := "Sync success"
    description := "All your accounts are up to date." }

/-- Handler `onRefresh` (lines 108-129).  `syncResult` is the value the awaited
`startSync` resolved with (`some err` on failure, `none` on success; per
the sync module's contract, errors are returned, never thrown).  Returns
the final state and the notifications posted. -/
def onRefresh (syncResult : Option String) (s : HState) : HState × List Notification :=
  let s₁ := { s with refreshing := true }
  let notifs :=
    if s₁.canSync then
      match syncResult with
      | some err => [{ kind := "error", title := "Sync error", description := err }]
      | none => [syncSuccessNotification]
    else []
  ({ s₁ with refreshing := false }, notifs)

/-- The object returned by the countdown timer's `onComplete` (lines 336-343). -/
structure OnCompleteResult where
  shouldRepeat : Bool
  delay : Nat
  newInitialRemainingTime : Nat
deriving Repr, DecidableEq

/-- Callback `onComplete` of the `CountdownCircleTimer`: returns the repeat
descriptor and performs no state update (the former
`setKey(prevKey => prevKey + 1)` was removed). -/
def countdownOnComplete (timeRemaining : Nat) : OnCompleteResult :=
  { shouldRepeat := true, delay := 0, newInitialRemainingTime := timeRemaining }

-- ## The event-step semantics

/-- External events delivered to a mounted `HomePage`. -/
inductive Event where
  | propsChange (p : Props)
  | accountsChange (accounts : List Account)
  | search (query : String)
  | tick
  | refresh (syncResult : Option String)
  | countdownComplete (timeRemaining : Nat)
deriving Repr, DecidableEq

/-- Result of one event: the new world, the `startSync` calls issued, and
the notifications posted. -/
structure StepResult where
  world : World
  syncCalls : List SyncCall
  notifications : List Notification
deriving Repr, DecidableEq

/-- One event step.  A props change runs the `canSync` effect and, if the
sync-timer effect's dependencies (`canSync`, `token`) changed, its
cleanup-and-rerun; a tick fires the interval closure; a refresh runs
`onRefresh` (which calls `startSync` only under `canSync`); a countdown
completion runs `onComplete`, which touches no state. -/
def step (w : World) : Event → StepResult
  | .propsChange p =>
    let s₁ := canSyncEffect p w.st
    if s₁.canSync ≠ w.st.canSync ∨ p.token ≠ w.props.token then
      let r := rerunSyncEffect p s₁
      { world := { props := p, st := r.1 }, syncCalls := r.2, notifications := [] }
    else
      { world := { props := p, st := s₁ }, syncCalls := [], notifications := [] }
  | .accountsChange accounts =>
    { world := { props := w.props, st := accountsEffect accounts w.st }
      syncCalls := [], notifications := [] }
  | .search query =>
    { world := { props := w.props, st := handleSearchStep query w.st }
      syncCalls := [], notifications := [] }
  | .tick =>
    match w.st.timer with
    | some t => { world := w, syncCalls := [t.call], notifications := [] }
    | none => { world := w, syncCalls := [], notifications := [] }
  | .refresh syncResult =>
    let r := onRefresh syncResult w.st
    { world := { props := w.props, st := r.1 }
      syncCalls := if w.st.canSync then [mkSyncCall w.props] else []
      notifications := r.2 }
  | .countdownComplete _ =>
    { world := w, syncCalls := [], notifications := [] }

/-- State on the first render: `searchQuery` is `""`, `filteredData` is
initialised from the `accounts` binding (see the temporal-dead-zone
analysis below; we take the intended value), `refreshing` and `canSync`
start `false`, `accountsVersion` starts `0`, no timer. -/
def initialState (accounts : List Account) : HState :=
  { searchQuery := ""
    filteredData := accounts
    accounts := accounts
    accountsVersion := 0
    refreshing := false
    canSync := false
    timer := none }

/-- Mounting the component: the effects run in declaration order with the
first render's values, where `canSync` is still `false`, so the
sync-timer effect's body is skipped on the first commit; if
`setCanSync` changed the value, that effect's dependencies changed and it
re-runs. -/
def mount (p : Props) (accounts : List Account) : World × List SyncCall :=
  let s₀ := initialState accounts
  let s₁ := canSyncEffect p s₀
  let s₂ := accountsEffect accounts s₁
  if s₂.canSync ≠ false then
    let r := rerunSyncEffect p s₂
    ({ props := p, st := r.1 }, r.2)
  else
    ({ props := p, st := s₂ }, [])

/-- Quiescence invariant: after the effect cascade settles, `canSync`
reflects the current props, and a (60-second) interval is installed
exactly when `canSync` holds. -/
def Settled (w : World) : Prop :=
  w.st.canSync = canSyncOf w.props ∧
  (canSyncOf w.props = false → w.st.timer = none) ∧
  (canSyncOf w.props = true →
    ∃ c, w.st.timer = some { intervalMs := REFRESH_INTERVAL, call := c })

-- ## The quiescence invariant holds on mount and is preserved

theorem settled_mount (p : Props) (accounts : List Account) :
    Settled (mount p accounts).1 := by
  by_cases h : canSyncOf p = true
  · simp [mount, Settled, initialState, canSyncEffect, accountsEffect,
      rerunSyncEffect, syncEffectBody, syncEffectCleanup, h]
  · simp only [Bool.not_eq_true] at h
    simp [mount, Settled, initialState, canSyncEffect, accountsEffect, h]

theorem settled_step (w : World) (e : Event) (hw : Settled w) :
    Settled (step w e).world := by
  obtain ⟨h1, h2, h3⟩ := hw
  cases e with
  | propsChange p =>
    simp only [step]
    split
    · by_cases hc : canSyncOf p = true
      · simp [Settled, canSyncEffect, rerunSyncEffect, syncEffectBody,
          syncEffectCleanup, hc]
      · simp only [Bool.not_eq_true] at hc
        simp [Settled, canSyncEffect, rerunSyncEffect, syncEffectBody,
          syncEffectCleanup, hc]
    · rename_i hcond
      simp only [not_or, ne_eq, not_not] at hcond
      obtain ⟨hcs, -⟩ := hcond
      simp only [canSyncEffect] at hcs
      refine ⟨by simp [canSyncEffect], ?_, ?_⟩
      · intro hfalse
        simp only [canSyncEffect]
        exact h2 (by rw [← h1, ← hcs, hfalse])
      · intro htrue
        simp only [canSyncEffect]
        exact h3 (by rw [← h1, ← hcs, htrue])
  | accountsChange accounts =>
    exact ⟨h1, fun h => h2 h, fun h => h3 h⟩
  | search query =>
    exact ⟨h1, fun h => h2 h, fun h => h3 h⟩
  | tick =>
    simp only [step]
    cases htimer : w.st.timer <;> exact ⟨h1, fun h => h2 h, fun h => h3 h⟩
  | refresh syncResult =>
    exact ⟨h1, fun h => h2 h, fun h => h3 h⟩
  | countdownComplete t =>
    exact ⟨h1, fun h => h2 h, fun h => h3 h⟩

-- ## Concrete fixtures for witnesses

/-- A second sample account. -/
def sampleAccount2 : Account :=
  { id := 2
    accountName := "Email"
    issuer := "Google"
    secretKey := "MFRGGZDFMZTWQ2LK"
    changedAt := 0
    oldAccountName := none }

/-- Props with no connectivity and no credentials. -/
def offlineProps : Props :=
  { isConnected := false, userInfo := none, serverUrl := none, token := none }

/-- Props with connectivity and complete credentials. -/
def onlineProps : Props :=
  { isConnected := true
    userInfo := some "alice"
    serverUrl := some "https://example.com"
    token := some "tok" }

/-- A settled offline world. -/
def offlineWorld : World :=
  { props := offlineProps, st := initialState [sampleAccount] }

/-- A settled online world: `canSync` holds and the 60-second interval is
installed. -/
def onlineWorld : World :=
  { props := onlineProps
    st := { initialState [sampleAccount] with
              canSync := true
              timer := some { intervalMs := REFRESH_INTERVAL
                              call := mkSyncCall onlineProps } } }

/-- A settled offline world in which the query `"git"` is active. -/
def searchingWorld : World :=
  { props := offlineProps
    st := { initialState [sampleAccount, sampleAccount2] with
              searchQuery := "git"
              filteredData := [sampleAccount] } }

theorem settled_offlineWorld : Settled offlineWorld :=
  ⟨rfl, fun _ => rfl, fun hc => by simp [canSyncOf, offlineProps, offlineWorld] at hc⟩

theorem settled_onlineWorld : Settled onlineWorld :=
  ⟨rfl, fun hc => by simp [canSyncOf, onlineProps, onlineWorld] at hc,
    fun _ => ⟨mkSyncCall onlineProps, rfl⟩⟩

-- ## Claim C2

/-- C2: for every account list, filtering with an empty or whitespace-only
query returns the full input list unchanged and in its original order. -/
theorem c2_blank_query_identity (accounts : List Account) (query : String)
    (h : ∀ c ∈ query.toList, c.isWhitespace) :
    handleSearchFiltered accounts query = accounts := by
  have hnil : jsTrim query = [] := (jsTrim_eq_nil_iff query).2 h
  simp [handleSearchFiltered, hnil]

theorem c2_blank_query_identity_witness :
    (∀ c ∈ (" \t ".toList), c.isWhitespace) ∧
    handleSearchFiltered [sampleAccount, sampleAccount2] " \t "
      = [sampleAccount, sampleAccount2] :=
  ⟨by decide, c2_blank_query_identity [sampleAccount, sampleAccount2] " \t " (by decide)⟩

-- ## Claim C3

/-- C3: for every account list and every query containing a non-whitespace
character, the filtered result is exactly the filter of the input — a
subsequence (sublist) of the input in original order whose members are
precisely the accounts whose `accountName` contains the query as a
case-insensitive substring. -/
theorem c3_nonblank_query_filters (accounts : List Account) (query : String)
    (h : ∃ c ∈ query.toList, ¬ c.isWhitespace) :
    handleSearchFiltered accounts query = accounts.filter (accountMatches query) ∧
    (handleSearchFiltered accounts query).Sublist accounts ∧
    ∀ a, a ∈ handleSearchFiltered accounts query ↔
      a ∈ accounts ∧ jsToLower query <:+: jsToLower a.accountName := by
  have hne : jsTrim query ≠ [] := by
    rw [ne_eq, jsTrim_eq_nil_iff]
    push_neg
    exact h
  have heq : handleSearchFiltered accounts query
      = accounts.filter (accountMatches query) := by
    simp [handleSearchFiltered, hne]
  refine ⟨heq, ?_, ?_⟩
  · rw [heq]
    exact List.filter_sublist accounts
  · intro a
    rw [heq, List.mem_filter]
    simp [accountMatches, jsIncludes]

theorem c3_nonblank_query_filters_witness :
    (∃ c ∈ ("git".toList), ¬ c.isWhitespace) ∧
    (handleSearchFiltered [sampleAccount, sampleAccount2] "git"
        = [sampleAccount, sampleAccount2].filter (accountMatches "git") ∧
      (handleSearchFiltered [sampleAccount, sampleAccount2] "git").Sublist
        [sampleAccount, sampleAccount2] ∧
      ∀ a, a ∈ handleSearchFiltered [sampleAccount, sampleAccount2] "git" ↔
        a ∈ [sampleAccount, sampleAccount2] ∧
          jsToLower "git" <:+: jsToLower a.accountName) :=
  ⟨by decide, c3_nonblank_query_filters [sampleAccount, sampleAccount2] "git" (by decide)⟩

-- ## Claim C4

/-- C4 (counterexample): the rename payload does not change only the
`accountName` field — on a freshly stored account it also changes the
`oldAccountName` property (from absent to the previous name), so the
object passed to the store differs from the input in more than
`accountName`. -/
theorem c4_rename_counterexample :
    ¬ (onAccountEditPayload sampleAccount "Work GitHub"
        = { sampleAccount with accountName := "Work GitHub" }) := by
  decide

/-- C4 (amended): the rename payload changes exactly the `accountName`
field (to the new name) and the `oldAccountName` property (to the
previous name); the `id`, `secretKey`, `issuer` and `changedAt` of the
account passed to the store are exactly the same as before the rename. -/
theorem c4_rename_frame (a : Account) (n : String) :
    (onAccountEditPayload a n).id = a.id ∧
    (onAccountEditPayload a n).secretKey = a.secretKey ∧
    (onAccountEditPayload a n).issuer = a.issuer ∧
    (onAccountEditPayload a n).changedAt = a.changedAt ∧
    (onAccountEditPayload a n).accountName = n ∧
    (onAccountEditPayload a n).oldAccountName = some a.accountName := by
  simp [onAccountEditPayload]

-- ## Claim C1

/-- C1: for every trigger of a sync attempt — initial activation (mount),
the periodic timer tick, a pull-to-refresh, or a connectivity/credential
change — if connectivity is absent or the user/server credentials are
incomplete, the call is a no-op: no `startSync` call is issued and nothing
is queued (the step emits an empty call list). -/
theorem c1_entry_guard (w : World) (r : Option String) (p : Props)
    (accounts : List Account) (hw : Settled w)
    (h : canSyncOf w.props = false) (hp : canSyncOf p = false) :
    (step w Event.tick).syncCalls = [] ∧
    (step w (Event.refresh r)).syncCalls = [] ∧
    (step w (Event.propsChange p)).syncCalls = [] ∧
    (mount p accounts).2 = [] := by
  obtain ⟨h1, h2, h3⟩ := hw
  refine ⟨?_, ?_, ?_, ?_⟩
  · simp [step, h2 h]
  · simp [step, h1, h]
  · simp only [step]
    split
    · simp [rerunSyncEffect, syncEffectBody, syncEffectCleanup, canSyncEffect, hp]
    · rfl
  · simp [mount, initialState, canSyncEffect, accountsEffect, hp]

theorem c1_entry_guard_witness :
    Settled offlineWorld ∧ canSyncOf offlineWorld.props = false ∧
    ((step offlineWorld Event.tick).syncCalls = [] ∧
      (step offlineWorld (Event.refresh (some "network down"))).syncCalls = [] ∧
      (step offlineWorld (Event.propsChange offlineProps)).syncCalls = [] ∧
      (mount offlineProps [sampleAccount]).2 = []) :=
  ⟨settled_offlineWorld, rfl,
    c1_entry_guard offlineWorld (some "network down") offlineProps [sampleAccount]
      settled_offlineWorld rfl rfl⟩

-- ## Claim C5

/-- C5: an account-collection change increments the version counter by one
and refreshes the list data (to the new collection), while a countdown
cycle completion changes nothing at all; ticks, refreshes and prop changes
also never touch `filteredData` or the version counter — recomputation
happens only on account-set change or query change. -/
theorem c5_version_counter (w : World) (accounts : List Account) (t : Nat)
    (p : Props) (r : Option String) :
    (step w (Event.accountsChange accounts)).world.st.accountsVersion
      = w.st.accountsVersion + 1 ∧
    (step w (Event.accountsChange accounts)).world.st.filteredData = accounts ∧
    flashListData (step w (Event.accountsChange accounts)).world.st = accounts ∧
    (step w (Event.countdownComplete t)).world = w ∧
    (countdownOnComplete t).shouldRepeat = true ∧
    (step w Event.tick).world = w ∧
    (step w (Event.refresh r)).world.st.filteredData = w.st.filteredData ∧
    (step w (Event.refresh r)).world.st.accountsVersion = w.st.accountsVersion ∧
    (step w (Event.propsChange p)).world.st.filteredData = w.st.filteredData ∧
    (step w (Event.propsChange p)).world.st.accountsVersion
      = w.st.accountsVersion := by
  refine ⟨by simp [step, accountsEffect], by simp [step, accountsEffect],
    by simp [step, accountsEffect, flashListData], rfl, rfl, ?_, ?_, ?_, ?_, ?_⟩
  · cases htimer : w.st.timer <;> simp [step, htimer]
  · simp [step, onRefresh]
  · simp [step, onRefresh]
  · simp only [step]
    split
    · by_cases hc : canSyncOf p = true <;>
        simp [rerunSyncEffect, syncEffectBody, syncEffectCleanup, canSyncEffect, hc]
    · rfl
  · simp only [step]
    split
    · by_cases hc : canSyncOf p = true <;>
        simp [rerunSyncEffect, syncEffectBody, syncEffectCleanup, canSyncEffect, hc]
    · rfl

-- ## Claim C6

/-- C6: while connectivity and credentials are present (in a settled
world), a fixed interval of `REFRESH_INTERVAL` = 60 seconds is installed
and each tick issues exactly the captured `startSync` call; and the timer
is torn down (cleared, or cleared and recreated) when the sync conditions
or the effect's dependencies change. -/
theorem c6_timer_cadence (w : World) (p : Props) (hw : Settled w) :
    (canSyncOf w.props = true →
      ∃ c, w.st.timer = some { intervalMs := REFRESH_INTERVAL, call := c } ∧
        (step w Event.tick).syncCalls = [c]) ∧
    REFRESH_INTERVAL = 60 * 1000 ∧
    (canSyncOf p = false →
      (step w (Event.propsChange p)).world.st.timer = none) ∧
    (canSyncOf p = true → p.token ≠ w.props.token →
      (step w (Event.propsChange p)).world.st.timer
        = some { intervalMs := REFRESH_INTERVAL, call := mkSyncCall p }) := by
  obtain ⟨h1, h2, h3⟩ := hw
  refine ⟨?_, rfl, ?_, ?_⟩
  · intro htrue
    obtain ⟨c, hc⟩ := h3 htrue
    exact ⟨c, hc, by simp [step, hc]⟩
  · intro hp
    simp only [step]
    split
    · simp [rerunSyncEffect, syncEffectBody, syncEffectCleanup, canSyncEffect, hp]
    · rename_i hcond
      simp only [not_or, ne_eq, not_not] at hcond
      obtain ⟨hcs, -⟩ := hcond
      simp only [canSyncEffect] at hcs
      simp only [canSyncEffect]
      exact h2 (by rw [← h1, ← hcs, hp])
  · intro hp htok
    simp only [step]
    split
    · simp [rerunSyncEffect, syncEffectBody, syncEffectCleanup, canSyncEffect, hp]
    · rename_i hcond
      simp only [not_or, ne_eq, not_not] at hcond
      exact absurd hcond.2 htok

theorem c6_timer_cadence_witness :
    Settled onlineWorld ∧ REFRESH_INTERVAL = 60 * 1000 ∧
    canSyncOf offlineProps = false ∧
    (step onlineWorld (Event.propsChange offlineProps)).world.st.timer = none ∧
    (step onlineWorld Event.tick).syncCalls = [mkSyncCall onlineProps] := by
  refine ⟨settled_onlineWorld, (c6_timer_cadence onlineWorld offlineProps
    settled_onlineWorld).2.1, rfl,
    (c6_timer_cadence onlineWorld offlineProps settled_onlineWorld).2.2.1 rfl, ?_⟩
  obtain ⟨c, hc, hcall⟩ :=
    (c6_timer_cadence onlineWorld offlineProps settled_onlineWorld).1 rfl
  have hcc : ({ intervalMs := REFRESH_INTERVAL, call := mkSyncCall onlineProps } : TimerInfo)
      = { intervalMs := REFRESH_INTERVAL, call := c } := Option.some.inj hc
  have hce : c = mkSyncCall onlineProps := (congrArg TimerInfo.call hcc).symm
  rw [← hce]
  exact hcall

-- ## Claim C7

/-- C7: whenever the sync-enabling condition transitions to true
(connectivity becomes present while user info and server URL are set), the
effect re-runs and issues a `startSync` call in the same transition step —
immediately, before the newly installed interval's first tick. -/
theorem c7_transition_starts_sync (w : World) (p : Props) (hw : Settled w)
    (h0 : canSyncOf w.props = false) (h1 : canSyncOf p = true) :
    (step w (Event.propsChange p)).syncCalls = [mkSyncCall p] ∧
    (step w (Event.propsChange p)).world.st.timer
      = some { intervalMs := REFRESH_INTERVAL, call := mkSyncCall p } := by
  obtain ⟨hcs, -, -⟩ := hw
  simp only [step]
  split
  · constructor <;>
      simp [rerunSyncEffect, syncEffectBody, syncEffectCleanup, canSyncEffect, h1]
  · rename_i hcond
    simp only [not_or, ne_eq, not_not] at hcond
    obtain ⟨hceq, -⟩ := hcond
    simp only [canSyncEffect] at hceq
    rw [hcs, h0] at hceq
    rw [h1] at hceq
    exact absurd hceq (by simp)

theorem c7_transition_starts_sync_witness :
    Settled offlineWorld ∧ canSyncOf offlineWorld.props = false ∧
    canSyncOf onlineProps = true ∧
    (step offlineWorld (Event.propsChange onlineProps)).syncCalls
      = [mkSyncCall onlineProps] :=
  ⟨settled_offlineWorld, rfl, rfl,
    (c7_transition_starts_sync offlineWorld onlineProps
      settled_offlineWorld rfl rfl).1⟩

-- ## Claim C8

/-- C8: for every user-initiated refresh, a failed sync is surfaced as the
error-message notification carrying exactly the error value `startSync`
resolved with (per the sync module's contract the error is returned, never
thrown, so the model's refresh step is a total function), and the
`refreshing` indicator ends up cleared whether the sync succeeds, fails,
or is skipped. -/
theorem c8_refresh_error_surfacing (w : World) (r : Option String) :
    (step w (Event.refresh r)).world.st.refreshing = false ∧
    (w.st.canSync = true → ∀ err, r = some err →
      (step w (Event.refresh r)).notifications
        = [{ kind := "error", title := "Sync error", description := err }]) ∧
    (w.st.canSync = true → r = none →
      (step w (Event.refresh r)).notifications = [syncSuccessNotification]) ∧
    (w.st.canSync = false →
      (step w (Event.refresh r)).notifications = [] ∧
      (step w (Event.refresh r)).syncCalls = []) := by
  refine ⟨by simp [step, onRefresh], ?_, ?_, ?_⟩
  · intro hc err hr
    subst hr
    simp [step, onRefresh, hc]
  · intro hc hr
    subst hr
    simp [step, onRefresh, hc]
  · intro hc
    simp [step, onRefresh, hc]

theorem c8_refresh_error_surfacing_witness :
    onlineWorld.st.canSync = true ∧
    (step onlineWorld (Event.refresh (some "boom"))).world.st.refreshing = false ∧
    (step onlineWorld (Event.refresh (some "boom"))).notifications
      = [{ kind := "error", title := "Sync error", description := "boom" }] :=
  ⟨rfl, (c8_refresh_error_surfacing onlineWorld (some "boom")).1,
    (c8_refresh_error_surfacing onlineWorld (some "boom")).2.1 rfl "boom" rfl⟩

-- ## Claim C9

/-- C9: whenever the account collection changes, `filteredData` is reset
to the whole new collection regardless of the active query, so while a
non-blank query is active the displayed `FlashList` data equals the full
account list — until the query is entered again, at which point the
displayed data is the filter of the new collection. -/
theorem c9_accounts_change_resets_filter (w : World) (accounts : List Account)
    (h : jsTrim w.st.searchQuery ≠ []) :
    flashListData (step w (Event.accountsChange accounts)).world.st = accounts ∧
    ∀ q, flashListData
        (step (step w (Event.accountsChange accounts)).world
          (Event.search q)).world.st
      = handleSearchFiltered accounts q := by
  constructor
  · simp [step, accountsEffect, flashListData]
  · intro q
    by_cases hq : jsTrim q = [] <;>
      simp [step, accountsEffect, handleSearchStep, flashListData,
        handleSearchFiltered, hq]

theorem c9_accounts_change_resets_filter_witness :
    jsTrim searchingWorld.st.searchQuery ≠ [] ∧
    flashListData
        (step searchingWorld (Event.accountsChange [sampleAccount2])).world.st
      = [sampleAccount2] :=
  ⟨by decide,
    (c9_accounts_change_resets_filter searchingWorld [sampleAccount2] (by decide)).1⟩

-- ## Claim C10

/-- One top-level statement of the `HomePage` function body: the `const`
bindings it declares and the previously-hoisted bindings its initializer
reads. -/
structure Stmt where
  declares : List String
  reads : List String
deriving Repr, DecidableEq

/-- The `const` declarations of the `HomePage` body, lines 48-66 of
`HomePage.js`, in source order.  Line 52
(`useState(accounts)`) reads `accounts`, which is declared by
destructuring only at line 65. -/
def homePageBody : List Stmt :=
  [ { declares := ["isPlusButton", "setIsPlusButton"], reads := [] },
    { declares := ["showOptions", "setShowOptions"], reads := [] },
    { declares := ["showEnterAccountModal", "setShowEnterAccountModal"], reads := [] },
    { declares := ["searchQuery", "setSearchQuery"], reads := [] },
    { declares := ["filteredData", "setFilteredData"], reads := ["accounts"] },
    { declares := ["showScanner", "setShowScanner"], reads := [] },
    { declares := ["showEditAccountModal", "setShowEditAccountModal"], reads := [] },
    { declares := ["editingAccount", "setEditingAccount"], reads := [] },
    { declares := ["placeholder", "setPlaceholder"], reads := [] },
    { declares := ["refreshing", "setRefreshing"], reads := [] },
    { declares := ["isConnected"], reads := [] },
    { declares := ["canSync", "setCanSync"], reads := [] },
    { declares := ["accountsVersion", "setAccountsVersion"], reads := [] },
    { declares := ["swipeableRef"], reads := [] },
    { declares := ["userInfo", "serverUrl", "token"], reads := [] },
    { declares := ["startSync"], reads := [] },
    { declares := ["accounts"], reads := [] },
    { declares := ["setAccount", "updateAccount", "insertAccount",
                   "insertAccounts", "deleteAccount"], reads := [] } ]

/-- All bindings hoisted (in the temporal dead zone until their declaring
statement executes). -/
def hoistedBindings (body : List Stmt) : List String :=
  (body.map Stmt.declares).flatten

/-- Evaluate the statements in order, tracking which hoisted bindings are
already initialised.  Reading a hoisted but uninitialised binding throws a
`ReferenceError`, modelled as `Except.error` naming the binding. -/
def evalStmts (hoisted : List String) :
    List Stmt → List String → Except String (List String)
  | [], env => Except.ok env
  | stmt :: rest, env =>
    match stmt.reads.find? (fun v => hoisted.contains v && !env.contains v) with
    | some v => Except.error v
    | none => evalStmts hoisted rest (env ++ stmt.declares)

/-- First evaluation of the `HomePage` body. -/
def runHomePageBody : Except String (List String) :=
  evalStmts (hoistedBindings homePageBody) homePageBody []

/-- C10: on every first evaluation of the `HomePage` component body, the
initializer of `filteredData` (line 52) reads the binding `accounts`
before the statement declaring it (line 65) has run: evaluation throws a
`ReferenceError` for `accounts`, and indeed the statement reading
`accounts` strictly precedes the statement declaring it. -/
theorem c10_tdz_read :
    runHomePageBody = Except.error "accounts" ∧
    List.findIdx (fun stmt => stmt.reads.contains "accounts") homePageBody
      < List.findIdx (fun stmt => stmt.declares.contains "accounts") homePageBody := by
  constructor
  · rfl
  · decide
